import Mathlib

/-!
Shallow embedding of the guestbook server (`main.go`): intake validation for
text and voice submissions, list-query limit clamping and ordering, the
admin access gate, and the audio-fetch lookup, together with theorems about
the spec's claims over these definitions.
-/

namespace GuestBook

/-! ### Constants (main.go lines 23-34) -/

def maxMessageLength : Nat := 500

def maxAudioDurationSeconds : Int := 60

/-- `maxAudioBytes = 2 << 20` (2 MB). -/
def maxAudioBytes : Nat := 2097152

def maxListLimit : Int := 400

def maxNameLength : Nat := 80

/-! ### Go string helpers (`strings.TrimSpace`, rune count) -/

/-- Go `unicode.IsSpace`: the Unicode White_Space property. -/
def goIsSpace (c : Char) : Bool :=
  c = ' ' || c = '\t' || c = '\n' || c = Char.ofNat 11 || c = Char.ofNat 12 ||
  c = '\r' || c = Char.ofNat 0x85 || c = Char.ofNat 0xA0 || c = Char.ofNat 0x1680 ||
  (0x2000 ≤ c.toNat && c.toNat ≤ 0x200A) || c = Char.ofNat 0x2028 ||
  c = Char.ofNat 0x2029 || c = Char.ofNat 0x202F || c = Char.ofNat 0x205F ||
  c = Char.ofNat 0x3000

/-- Go `strings.TrimSpace`: drop leading and trailing white space. -/
def goTrimSpace (s : String) : String :=
  ⟨((s.data.dropWhile goIsSpace).reverse.dropWhile goIsSpace).reverse⟩

/-- Go `len([]rune(s))`: the number of Unicode code points of `s`. -/
def runeLen (s : String) : Nat := s.data.length

/-- Go `strings.HasPrefix`. -/
def goStartsWith (s pre : String) : Bool := pre.data.isPrefixOf s.data

/-- Infix search on character lists, structural recursion on the haystack. -/
def charsInfixOf (sub : List Char) : List Char → Bool
  | [] => sub.isEmpty
  | a :: as => sub.isPrefixOf (a :: as) || charsInfixOf sub as

/-- Go `strings.Contains`. -/
def goContains (s sub : String) : Bool := charsInfixOf sub.data s.data

/-! ### Text submission intake (`handleMessage`, main.go 107-179) -/

/-- Outcome of a text submission: either a row is inserted with the given
normalized fields, or the request is rejected with a 400 reason and no
insert runs. -/
inductive TextResult where
  | created (guestName text : String)
  | clientError (reason : String)
deriving DecidableEq

/-- The validation-and-store chain of `handleMessage` after the payload has
been decoded (main.go 144-172).  `created` means the insert statement is
issued with exactly these values; every other branch returns before it. -/
def handleMessage (name text : String) : TextResult :=
  let name := goTrimSpace name
  let text := goTrimSpace text
  if name = "" then .clientError "name is required"
  else if runeLen name > maxNameLength then .clientError "name is too long"
  else if text = "" then .clientError "message cannot be empty"
  else if runeLen text > maxMessageLength then .clientError "message too long"
  else .created name text

/-- The `submitMessage` GraphQL mutation resolver (main.go 686-710), same
validation chain; `Except.ok true` means the insert is issued. -/
def gqlSubmitMessage (name text : String) : Except String Bool :=
  let name := goTrimSpace name
  let text := goTrimSpace text
  if name = "" then .error "name is required"
  else if runeLen name > maxNameLength then .error "name is too long"
  else if text = "" then .error "message cannot be empty"
  else if runeLen text > maxMessageLength then .error "message too long"
  else .ok true

/-! ### Voice submission intake (`handleVoiceMessageUpload`, main.go 224-318) -/

/-- Outcome of a voice upload: a row with these fields, or a 400 rejection. -/
inductive VoiceResult where
  | created (guestName note : String) (audio : List Nat) (mimeType : String)
      (durationSeconds : Int)
  | clientError (reason : String)
deriving DecidableEq

/-- A decoded multipart voice upload.  `durationField` is `none` when the
trimmed `duration` form value is empty (missing), `some none` when present
but `strconv.ParseFloat` fails, and `some (some d)` when it parses to `d`
(modelled as a rational).  `audioFile` is `none` when the `audio` part is
absent.  `sniffedMime` is the value `http.DetectContentType` would return
on the buffered bytes. -/
structure VoiceUpload where
  durationField : Option (Option ℚ)
  audioFile : Option (List Nat)
  declaredMime : String
  sniffedMime : String
  name : String
  note : String

/-- Go `math.Round`: nearest integer, half away from zero. -/
def goRound (q : ℚ) : Int := if 0 ≤ q then ⌊q + 1/2⌋ else -⌊-q + 1/2⌋

/-- MIME resolution of main.go 283-289: declared part content type if
non-empty, else the sniffed type; `audio/webm` substituted when the result
is empty or `application/octet-stream`. -/
def resolveMime (declared sniffed : String) : String :=
  let m := if declared = "" then sniffed else declared
  if m = "" ∨ m = "application/octet-stream" then "audio/webm" else m

/-- The acceptance test of main.go 290: the negation of the rejection
condition `!strings.HasPrefix(m, "audio/") && !strings.Contains(m, "webm")`. -/
def mimeAccepted (m : String) : Bool := goStartsWith m "audio/" || goContains m "webm"

/-- The validation-and-store chain of `handleVoiceMessageUpload` after the
multipart form has been parsed (main.go 245-317).  The audio bytes are read
through `io.LimitReader(file, maxAudioBytes+1)`, modelled by `List.take`. -/
def handleVoiceMessageUpload (f : VoiceUpload) : VoiceResult :=
  match f.durationField with
  | none => .clientError "duration is required"
  | some none => .clientError "invalid duration"
  | some (some d) =>
    let durationSeconds := goRound d
    if durationSeconds ≤ 0 ∨ durationSeconds > maxAudioDurationSeconds then
      .clientError "duration exceeds limit"
    else match f.audioFile with
    | none => .clientError "audio file is required"
    | some fileBytes =>
      let buf := fileBytes.take (maxAudioBytes + 1)
      if buf.length = 0 then .clientError "audio file is empty"
      else if buf.length > maxAudioBytes then .clientError "audio file too large"
      else
        let mimeType := resolveMime f.declaredMime f.sniffedMime
        if mimeAccepted mimeType = true then
          let guestName := goTrimSpace f.name
          if guestName = "" then .clientError "name is required"
          else if runeLen guestName > maxNameLength then .clientError "name is too long"
          else .created guestName (goTrimSpace f.note) buf mimeType durationSeconds
        else .clientError "unsupported audio type"

/-! ### List queries (flat feed `handleAdmin` 190-222, GraphQL resolvers 618-673) -/

/-- A row of the `messages` table; `createdAt` is the creation timestamp. -/
structure Message where
  id : Int
  guestName : String
  text : String
  createdAt : Int
deriving DecidableEq

/-- A metadata row of the `voice_messages` table. -/
structure VoiceMeta where
  id : Int
  guestName : String
  note : String
  durationSeconds : Int
  mimeType : String
  createdAt : Int
deriving DecidableEq

/-- `ORDER BY created_at DESC` for text rows: `a` may come before `b`. -/
def msgDesc (a b : Message) : Prop := b.createdAt ≤ a.createdAt

instance : DecidableRel msgDesc := fun a b => Int.decLe b.createdAt a.createdAt

instance : IsTotal Message msgDesc := ⟨fun a b => Int.le_total b.createdAt a.createdAt⟩

instance : IsTrans Message msgDesc := ⟨fun _ _ _ hab hbc => le_trans hbc hab⟩

/-- `ORDER BY created_at DESC` for voice rows. -/
def vmDesc (a b : VoiceMeta) : Prop := b.createdAt ≤ a.createdAt

instance : DecidableRel vmDesc := fun a b => Int.decLe b.createdAt a.createdAt

instance : IsTotal VoiceMeta vmDesc := ⟨fun a b => Int.le_total b.createdAt a.createdAt⟩

instance : IsTrans VoiceMeta vmDesc := ⟨fun _ _ _ hab hbc => le_trans hbc hab⟩

/-- The storage engine's `ORDER BY created_at DESC` on the text table. -/
def orderMessagesDesc (db : List Message) : List Message := List.insertionSort msgDesc db

/-- The storage engine's `ORDER BY created_at DESC` on the voice table. -/
def orderVoiceDesc (db : List VoiceMeta) : List VoiceMeta := List.insertionSort vmDesc db

/-- The limit actually passed to `LIMIT $1` by both GraphQL resolvers
(main.go 624-626 and 652-654): `maxListLimit` unless the caller supplied a
limit `l` with `0 < l ≤ maxListLimit`. -/
def clampLimit (arg : Option Int) : Int :=
  match arg with
  | some l => if 0 < l ∧ l ≤ maxListLimit then l else maxListLimit
  | none => maxListLimit

/-- The `messages` GraphQL resolver (main.go 623-644): order by creation
time descending, return at most `clampLimit arg` rows. -/
def gqlMessagesResolve (db : List Message) (arg : Option Int) : List Message :=
  (orderMessagesDesc db).take (clampLimit arg).toNat

/-- The `voiceMessages` GraphQL resolver (main.go 651-672). -/
def gqlVoiceMessagesResolve (db : List VoiceMeta) (arg : Option Int) : List VoiceMeta :=
  (orderVoiceDesc db).take (clampLimit arg).toNat

/-- The flat feed `handleAdmin` query (main.go 193):
`SELECT ... FROM messages ORDER BY created_at DESC LIMIT 200`. -/
def handleAdminMessages (db : List Message) : List Message :=
  (orderMessagesDesc db).take 200

/-! ### Access gate (`checkAdminAuth` 513-524, `requireAdminAuth` 504-511) -/

/-- Result of the gate check: pass through, or a 401 challenge with realm. -/
inductive AuthOutcome where
  | pass
  | challenge (realm : String)
deriving DecidableEq

/-- `checkAdminAuth`: open when either configured credential is empty;
otherwise the Basic-auth pair (`none` when the header is absent or
malformed) must match both configured values. -/
def checkAdminAuth (adminUser adminPass : String)
    (basicAuth : Option (String × String)) : AuthOutcome :=
  if adminUser = "" ∨ adminPass = "" then .pass
  else
    match basicAuth with
    | none => .challenge "Admin"
    | some (u, p) =>
      if u ≠ adminUser ∨ p ≠ adminPass then .challenge "Admin" else .pass

/-- Responses a gated route can produce. -/
inductive HttpResponse where
  | audioContent (mimeType : String) (audio : List Nat)
  | notFound
  | internalError (msg : String)
  | unauthorized (realm : String)
  | content (body : String)
deriving DecidableEq

/-- `requireAdminAuth`: run the wrapped handler only when the gate passes. -/
def requireAdminAuth (adminUser adminPass : String)
    (basicAuth : Option (String × String)) (next : HttpResponse) : HttpResponse :=
  match checkAdminAuth adminUser adminPass basicAuth with
  | .pass => next
  | .challenge realm => .unauthorized realm

/-! ### Audio fetch (`handleVoiceAudio`, main.go 361-401) -/

/-- What the point lookup `SELECT audio, mime_type ... WHERE id = $1` can
yield: a row, no matching row, or a storage failure (timeout, pool
exhaustion, any other error). -/
inductive LookupOutcome where
  | row (audio : List Nat) (mimeType : String)
  | noRow
  | storageError
deriving DecidableEq

/-- The response of `handleVoiceAudio` after id parsing, as a function of
the lookup outcome: the code checks only `err != nil` (main.go 393-395), so
both `noRow` and `storageError` take the `http.NotFound` branch. -/
def handleVoiceAudio (res : LookupOutcome) : HttpResponse :=
  match res with
  | .row audio mime => .audioContent mime audio
  | .noRow => .notFound
  | .storageError => .notFound

/-! ### Concrete inputs used by witnesses and counterexamples -/

/-- A voice upload whose duration field is blank. -/
def uploadMissingDuration : VoiceUpload :=
  ⟨none, some [0], "audio/webm", "", "Ana", ""⟩

/-- A voice upload with duration 60.4 seconds, otherwise valid. -/
def upload604 : VoiceUpload :=
  ⟨some (some (302/5)), some [0], "audio/webm", "", "Ana", ""⟩

/-- A voice upload whose audio is exactly `maxAudioBytes` long. -/
def uploadAtCap : VoiceUpload :=
  ⟨some (some 10), some (List.replicate maxAudioBytes 0), "audio/webm", "", "Ana", ""⟩

/-- A voice upload with no declared content type and a generic sniffed
type, otherwise valid. -/
def uploadOctet : VoiceUpload :=
  ⟨some (some 10), some [0], "", "application/octet-stream", "Bo", ""⟩

/-! ### Helper lemmas -/

lemma goRound_ten : goRound (10 : ℚ) = 10 := by
  unfold goRound
  rw [if_pos (by norm_num), Int.floor_eq_iff]
  norm_num

lemma goRound_604 : goRound ((302 : ℚ)/5) = 60 := by
  unfold goRound
  rw [if_pos (by norm_num)]
  have h : (302 : ℚ)/5 + 1/2 = 609/10 := by norm_num
  rw [h, Int.floor_eq_iff]
  norm_num

lemma one_le_goRound {d : ℚ} (h : 1 ≤ d) : 1 ≤ goRound d := by
  unfold goRound
  rw [if_pos (by linarith), Int.le_floor]
  push_cast
  linarith

lemma goRound_le_sixty {d : ℚ} (h : d ≤ 60) : goRound d ≤ 60 := by
  unfold goRound
  split
  · have h1 : ⌊d + 1/2⌋ < 61 := by
      rw [Int.floor_lt]
      push_cast
      linarith
    omega
  · rename_i hneg
    push_neg at hneg
    have h0 : (0 : ℤ) ≤ ⌊-d + 1/2⌋ := by
      rw [Int.le_floor]
      push_cast
      linarith
    omega

lemma goRound_nonpos {d : ℚ} (h : d ≤ 0) : goRound d ≤ 0 := by
  unfold goRound
  split
  · rename_i hpos
    have hd0 : d = 0 := le_antisymm h hpos
    subst hd0
    have h1 : ⌊(0 : ℚ) + 1/2⌋ < 1 := by
      rw [Int.floor_lt]
      norm_num
    omega
  · rename_i hneg
    push_neg at hneg
    have h0 : (0 : ℤ) ≤ ⌊-d + 1/2⌋ := by
      rw [Int.le_floor]
      push_cast
      linarith
    omega

/-- Symbolic evaluation of the voice handler on a fully valid upload. -/
lemma handleVoice_created (f : VoiceUpload) (d : ℚ) (b : List Nat)
    (hd : f.durationField = some (some d))
    (h1 : 1 ≤ goRound d) (h2 : goRound d ≤ maxAudioDurationSeconds)
    (hb : f.audioFile = some b) (hbne : b ≠ []) (hble : b.length ≤ maxAudioBytes)
    (hm : mimeAccepted (resolveMime f.declaredMime f.sniffedMime) = true)
    (hn : goTrimSpace f.name ≠ "") (hn2 : runeLen (goTrimSpace f.name) ≤ maxNameLength) :
    handleVoiceMessageUpload f =
      .created (goTrimSpace f.name) (goTrimSpace f.note) b
        (resolveMime f.declaredMime f.sniffedMime) (goRound d) := by
  have htake : b.take (maxAudioBytes + 1) = b := List.take_of_length_le (by omega)
  simp only [handleVoiceMessageUpload, hd, hb, htake]
  rw [if_neg (by omega), if_neg (by simp [hbne]), if_neg (by omega), if_pos hm,
    if_neg hn, if_neg (by omega)]

/-- Symbolic evaluation of the voice handler when the resolved MIME type is
rejected and every earlier validation stage passes. -/
lemma handleVoice_badMime (f : VoiceUpload) (d : ℚ) (b : List Nat)
    (hd : f.durationField = some (some d))
    (h1 : 1 ≤ goRound d) (h2 : goRound d ≤ maxAudioDurationSeconds)
    (hb : f.audioFile = some b) (hbne : b ≠ []) (hble : b.length ≤ maxAudioBytes)
    (hm : mimeAccepted (resolveMime f.declaredMime f.sniffedMime) = false) :
    handleVoiceMessageUpload f = .clientError "unsupported audio type" := by
  have htake : b.take (maxAudioBytes + 1) = b := List.take_of_length_le (by omega)
  simp only [handleVoiceMessageUpload, hd, hb, htake]
  rw [if_neg (by omega), if_neg (by simp [hbne]), if_neg (by omega),
    if_neg (by simp [hm])]

/-! ### Claim C1 (text-body bounds) -/

/-- Claim C1, as stated, is false: a text submission whose trimmed body has
character count in (0, 500] is still rejected when the name is empty, since
`handleMessage` requires a non-empty trimmed name (main.go 147-150). -/
theorem claim_C1_counterexample :
    handleMessage "" "hi" = TextResult.clientError "name is required" ∧
    0 < runeLen (goTrimSpace "hi") ∧ runeLen (goTrimSpace "hi") ≤ maxMessageLength := by
  refine ⟨by decide, by decide, by decide⟩

/-- Claim C1 (amended): given a valid name (non-empty after trimming, at
most 80 characters), a text submission whose trimmed body has character
count in (0, 500] is accepted and the stored body equals the trimmed input
exactly; a trimmed body of character count 0 or above 500 is rejected with
a client-error reason (for any name) and no row is created. -/
theorem claim_C1 (name text : String)
    (hn : goTrimSpace name ≠ "") (hn2 : runeLen (goTrimSpace name) ≤ maxNameLength) :
    (goTrimSpace text ≠ "" → runeLen (goTrimSpace text) ≤ maxMessageLength →
      handleMessage name text = .created (goTrimSpace name) (goTrimSpace text)) ∧
    (goTrimSpace text = "" →
      handleMessage name text = .clientError "message cannot be empty") ∧
    (runeLen (goTrimSpace text) > maxMessageLength →
      handleMessage name text = .clientError "message too long") ∧
    (∀ n t : String, goTrimSpace t = "" ∨ runeLen (goTrimSpace t) > maxMessageLength →
      ∃ r, handleMessage n t = .clientError r) := by
  refine ⟨?_, ?_, ?_, ?_⟩
  · intro ht htl
    simp only [handleMessage]
    rw [if_neg hn, if_neg (by omega), if_neg ht, if_neg (by omega)]
  · intro ht
    simp only [handleMessage]
    rw [if_neg hn, if_neg (by omega), if_pos ht]
  · intro htl
    have ht : goTrimSpace text ≠ "" := by
      intro h
      rw [h] at htl
      revert htl
      decide
    simp only [handleMessage]
    rw [if_neg hn, if_neg (by omega), if_neg ht, if_pos htl]
  · intro n t h
    by_cases h1 : goTrimSpace n = ""
    · exact ⟨"name is required", by simp [handleMessage, h1]⟩
    · by_cases h2 : runeLen (goTrimSpace n) > maxNameLength
      · exact ⟨"name is too long", by simp [handleMessage, h1, h2]⟩
      · by_cases h3 : goTrimSpace t = ""
        · exact ⟨"message cannot be empty", by simp [handleMessage, h1, h2, h3]⟩
        · have h4 : runeLen (goTrimSpace t) > maxMessageLength := h.resolve_left h3
          exact ⟨"message too long", by simp [handleMessage, h1, h2, h3, h4]⟩

/-- Witness for the amended C1 at a concrete accepted submission. -/
theorem claim_C1_witness :
    handleMessage "Sam" "Congrats!" =
      TextResult.created (goTrimSpace "Sam") (goTrimSpace "Congrats!") :=
  (claim_C1 "Sam" "Congrats!" (by decide) (by decide)).1 (by decide) (by decide)

/-! ### Claim C8 (name optionality) -/

/-- Claim C8, as stated, is false: a text submission whose name is empty is
not accepted with the name stored as the empty string, it is rejected with
reason `name is required` even when the body is valid. -/
theorem claim_C8_counterexample :
    handleMessage "" "hello" = TextResult.clientError "name is required" ∧
    goTrimSpace "" = "" ∧
    0 < runeLen (goTrimSpace "hello") ∧ runeLen (goTrimSpace "hello") ≤ maxMessageLength := by
  refine ⟨by decide, by decide, by decide, by decide⟩

/-- Claim C8 (amended): the guest name is required on the text path: a
submission with an empty trimmed name is rejected (`name is required`, in
both the flat handler and the typed mutation), one whose trimmed name
exceeds 80 characters is rejected (`name is too long`), and otherwise the
trimmed name is persisted. -/
theorem claim_C8 (name text : String)
    (ht : goTrimSpace text ≠ "") (ht2 : runeLen (goTrimSpace text) ≤ maxMessageLength) :
    (goTrimSpace name = "" →
      handleMessage name text = .clientError "name is required" ∧
      gqlSubmitMessage name text = .error "name is required") ∧
    (runeLen (goTrimSpace name) > maxNameLength →
      handleMessage name text = .clientError "name is too long") ∧
    (goTrimSpace name ≠ "" → runeLen (goTrimSpace name) ≤ maxNameLength →
      handleMessage name text = .created (goTrimSpace name) (goTrimSpace text)) := by
  refine ⟨?_, ?_, ?_⟩
  · intro hne
    constructor
    · simp only [handleMessage]
      rw [if_pos hne]
    · simp only [gqlSubmitMessage]
      rw [if_pos hne]
  · intro hlong
    have hne : goTrimSpace name ≠ "" := by
      intro h
      rw [h] at hlong
      revert hlong
      decide
    simp only [handleMessage]
    rw [if_neg hne, if_pos hlong]
  · intro hne hlen
    simp only [handleMessage]
    rw [if_neg hne, if_neg (by omega), if_neg ht, if_neg (by omega)]

/-- Witness for the amended C8 at concrete inputs. -/
theorem claim_C8_witness :
    handleMessage "" "hello" = TextResult.clientError "name is required" ∧
    gqlSubmitMessage "" "hello" = Except.error "name is required" :=
  (claim_C8 "" "hello" (by decide) (by decide)).1 (by decide)

/-! ### Claim C9 (audio fetch: storage failure vs not-found) -/

/-- Claim C9, as stated, is false: a storage failure during the audio point
lookup is reported with the same generic not-found response used for a
missing row (main.go 393-395 checks only `err != nil` and calls
`http.NotFound`), not as a distinct internal error. -/
theorem claim_C9_counterexample :
    handleVoiceAudio LookupOutcome.storageError = HttpResponse.notFound ∧
    handleVoiceAudio LookupOutcome.noRow = HttpResponse.notFound :=
  ⟨rfl, rfl⟩

/-- Claim C9 (amended): for every audio-fetch lookup, both a missing row
and a timeout/storage failure are reported with the same generic not-found
outcome; the handler does not distinguish storage unavailability from
absence. -/
theorem claim_C9 (res : LookupOutcome)
    (h : res = LookupOutcome.noRow ∨ res = LookupOutcome.storageError) :
    handleVoiceAudio res = HttpResponse.notFound := by
  rcases h with h | h <;> subst h <;> rfl

/-- Witness for the amended C9 at the storage-failure outcome. -/
theorem claim_C9_witness :
    handleVoiceAudio LookupOutcome.storageError = HttpResponse.notFound :=
  claim_C9 LookupOutcome.storageError (Or.inr rfl)

/-! ### Claim C6 (access gate) -/

/-- Claim C6: with no operator credential configured the gate passes every
request, credential header or not; with a credential pair configured the
gate returns the authentication-required challenge with realm `Admin`
whenever the header is absent or either component differs, and passes
through unchanged exactly when both components match. -/
theorem claim_C6 :
    (∀ cred, checkAdminAuth "" "" cred = AuthOutcome.pass) ∧
    (∀ au ap : String, au ≠ "" → ap ≠ "" →
      checkAdminAuth au ap none = AuthOutcome.challenge "Admin" ∧
      (∀ u p, u ≠ au ∨ p ≠ ap →
        checkAdminAuth au ap (some (u, p)) = AuthOutcome.challenge "Admin") ∧
      (∀ u p, checkAdminAuth au ap (some (u, p)) = AuthOutcome.pass ↔ u = au ∧ p = ap) ∧
      (∀ next, requireAdminAuth au ap (some (au, ap)) next = next) ∧
      (∀ next, requireAdminAuth au ap none next = HttpResponse.unauthorized "Admin")) := by
  constructor
  · intro cred
    simp [checkAdminAuth]
  · intro au ap hau hap
    have hcfg : ¬(au = "" ∨ ap = "") := by
      simp [hau, hap]
    refine ⟨?_, ?_, ?_, ?_, ?_⟩
    · simp only [checkAdminAuth]
      rw [if_neg hcfg]
    · intro u p h
      simp only [checkAdminAuth]
      rw [if_neg hcfg, if_pos h]
    · intro u p
      simp only [checkAdminAuth]
      rw [if_neg hcfg]
      by_cases h : u ≠ au ∨ p ≠ ap
      · rw [if_pos h]
        constructor
        · intro hcon
          exact absurd hcon (by simp)
        · intro heq
          exact absurd heq (by tauto)
      · rw [if_neg h]
        push_neg at h
        simp [h]
    · intro next
      simp only [requireAdminAuth, checkAdminAuth]
      rw [if_neg hcfg]
      simp
    · intro next
      simp only [requireAdminAuth, checkAdminAuth]
      rw [if_neg hcfg]

/-- Witness for C6 at a concrete configured credential pair. -/
theorem claim_C6_witness :
    checkAdminAuth "alice" "s3cret" none = AuthOutcome.challenge "Admin" ∧
    checkAdminAuth "alice" "s3cret" (some ("alice", "wrong")) = AuthOutcome.challenge "Admin" ∧
    checkAdminAuth "alice" "s3cret" (some ("alice", "s3cret")) = AuthOutcome.pass ∧
    checkAdminAuth "" "" none = AuthOutcome.pass :=
  ⟨(claim_C6.2 "alice" "s3cret" (by decide) (by decide)).1,
   (claim_C6.2 "alice" "s3cret" (by decide) (by decide)).2.1 "alice" "wrong" (by decide),
   ((claim_C6.2 "alice" "s3cret" (by decide) (by decide)).2.2.1 "alice" "s3cret").mpr
     ⟨rfl, rfl⟩,
   claim_C6.1 none⟩

/-! ### Claim C10 (gate open when either credential is empty) -/

/-- Claim C10: the gate is open whenever either configured credential is
the empty string, not only when both are unset: every request passes the
check, and every wrapped (gated) handler runs, without any credential. -/
theorem claim_C10 (au ap : String) (h : au = "" ∨ ap = "") :
    (∀ cred, checkAdminAuth au ap cred = AuthOutcome.pass) ∧
    (∀ cred next, requireAdminAuth au ap cred next = next) := by
  constructor
  · intro cred
    simp only [checkAdminAuth]
    rw [if_pos h]
  · intro cred next
    simp only [requireAdminAuth, checkAdminAuth]
    rw [if_pos h]

/-- Witness for C10: username configured, password empty, no header. -/
theorem claim_C10_witness :
    checkAdminAuth "admin" "" none = AuthOutcome.pass ∧
    requireAdminAuth "admin" "" none (HttpResponse.content "feed") =
      HttpResponse.content "feed" :=
  ⟨(claim_C10 "admin" "" (Or.inr rfl)).1 none,
   (claim_C10 "admin" "" (Or.inr rfl)).2 none (HttpResponse.content "feed")⟩

/-! ### Claim C4 (limit clamping and ordering) -/

/-- Claim C4: both typed-surface list resolvers request `l` rows from
storage when `0 < l ≤ 400` and 400 rows otherwise (argument absent,
non-positive, or above the ceiling); the returned rows are ordered by
creation time descending. -/
theorem claim_C4 :
    (∀ l : Int, 0 < l → l ≤ maxListLimit → clampLimit (some l) = l) ∧
    (∀ l : Int, l ≤ 0 ∨ maxListLimit < l → clampLimit (some l) = maxListLimit) ∧
    clampLimit none = maxListLimit ∧
    (∀ db arg, (gqlMessagesResolve db arg).length = min (clampLimit arg).toNat db.length) ∧
    (∀ db arg, List.Sorted msgDesc (gqlMessagesResolve db arg)) ∧
    (∀ db arg, List.Sorted vmDesc (gqlVoiceMessagesResolve db arg)) := by
  refine ⟨?_, ?_, rfl, ?_, ?_, ?_⟩
  · intro l h1 h2
    simp [clampLimit, h1, h2]
  · intro l h
    have hc : ¬(0 < l ∧ l ≤ maxListLimit) := by
      simp only [maxListLimit] at h ⊢
      omega
    simp [clampLimit, hc]
  · intro db arg
    simp [gqlMessagesResolve, orderMessagesDesc, List.length_take]
  · intro db arg
    exact List.Pairwise.sublist (List.take_sublist _ _)
      (List.sorted_insertionSort msgDesc db)
  · intro db arg
    exact List.Pairwise.sublist (List.take_sublist _ _)
      (List.sorted_insertionSort vmDesc db)

/-- Witness for C4 at concrete limits 5, 401 and 0. -/
theorem claim_C4_witness :
    clampLimit (some 5) = 5 ∧ clampLimit (some 401) = maxListLimit ∧
    clampLimit (some 0) = maxListLimit :=
  ⟨claim_C4.1 5 (by decide) (by decide),
   claim_C4.2.1 401 (Or.inr (by decide)),
   claim_C4.2.1 0 (Or.inl (by decide))⟩

/-! ### Claim C5 (flat feed vs typed surface) -/

/-- Claim C5: over the same stored data, the flat text feed (fixed limit
200) and the typed `messages` query at the equivalent limit 200 return the
very same rows, in the same order (creation time descending) with the same
field values; in particular identical ordered id sequences. -/
theorem claim_C5 (db : List Message) :
    handleAdminMessages db = gqlMessagesResolve db (some 200) ∧
    (handleAdminMessages db).map Message.id =
      (gqlMessagesResolve db (some 200)).map Message.id ∧
    (handleAdminMessages db).map Message.text =
      (gqlMessagesResolve db (some 200)).map Message.text := by
  have hc : clampLimit (some 200) = 200 := by decide
  have h : gqlMessagesResolve db (some 200) = handleAdminMessages db := by
    simp [gqlMessagesResolve, handleAdminMessages, hc]
  exact ⟨h.symm, by rw [h], by rw [h]⟩

/-! ### Claim C2 (voice duration bounds) -/

/-- Claim C2, as stated, is false on its `d > 60 ⇒ rejected` half: the code
rounds before the bound check, so the duration 60.4 (= 302/5), though
strictly greater than 60, rounds to 60 and the otherwise-valid upload is
accepted. -/
theorem claim_C2_counterexample :
    (60 : ℚ) < 302/5 ∧
    handleVoiceMessageUpload upload604 =
      VoiceResult.created "Ana" "" [0] "audio/webm" 60 := by
  constructor
  · norm_num
  · have h := handleVoice_created upload604 (302/5) [0] rfl
      (by rw [goRound_604]; decide) (by rw [goRound_604]; decide) rfl
      (by decide) (by decide) (by decide) (by decide) (by decide)
    rw [goRound_604] at h
    exact h.trans (by decide)

/-- Claim C2 (amended): the `duration` field is required and must parse as
a real number; the parsed value is rounded to the nearest integer second
(half away from zero) and the upload is rejected exactly when the rounded
value is ≤ 0 or > 60.  Hence every `d` with `1 ≤ d ≤ 60` is accepted
(given otherwise-valid audio) and every `d ≤ 0` is rejected, but a `d` in
(60, 60.5) rounds to 60 and is accepted. -/
theorem claim_C2 :
    (∀ f : VoiceUpload, f.durationField = none →
      handleVoiceMessageUpload f = .clientError "duration is required") ∧
    (∀ f : VoiceUpload, f.durationField = some none →
      handleVoiceMessageUpload f = .clientError "invalid duration") ∧
    (∀ (f : VoiceUpload) (d : ℚ), f.durationField = some (some d) →
      goRound d ≤ 0 ∨ maxAudioDurationSeconds < goRound d →
      handleVoiceMessageUpload f = .clientError "duration exceeds limit") ∧
    (∀ (f : VoiceUpload) (d : ℚ) (b : List Nat), f.durationField = some (some d) →
      1 ≤ goRound d → goRound d ≤ maxAudioDurationSeconds →
      f.audioFile = some b → b ≠ [] → b.length ≤ maxAudioBytes →
      mimeAccepted (resolveMime f.declaredMime f.sniffedMime) = true →
      goTrimSpace f.name ≠ "" → runeLen (goTrimSpace f.name) ≤ maxNameLength →
      handleVoiceMessageUpload f =
        .created (goTrimSpace f.name) (goTrimSpace f.note) b
          (resolveMime f.declaredMime f.sniffedMime) (goRound d)) ∧
    (∀ d : ℚ, 1 ≤ d → d ≤ 60 → 1 ≤ goRound d ∧ goRound d ≤ 60) ∧
    (∀ d : ℚ, d ≤ 0 → goRound d ≤ 0) := by
  refine ⟨?_, ?_, ?_, ?_, ?_, ?_⟩
  · intro f h
    simp [handleVoiceMessageUpload, h]
  · intro f h
    simp [handleVoiceMessageUpload, h]
  · intro f d h hout
    simp only [handleVoiceMessageUpload, h]
    rw [if_pos (by omega)]
  · intro f d b hd h1 h2 hb hbne hble hm hn hn2
    exact handleVoice_created f d b hd h1 h2 hb hbne hble hm hn hn2
  · intro d hd1 hd2
    exact ⟨one_le_goRound hd1, goRound_le_sixty hd2⟩
  · intro d hd
    exact goRound_nonpos hd

/-- Witness for the amended C2 at a blank duration field. -/
theorem claim_C2_witness :
    handleVoiceMessageUpload uploadMissingDuration =
      VoiceResult.clientError "duration is required" :=
  claim_C2.1 uploadMissingDuration rfl

/-! ### Claim C3 (audio size cap) -/

/-- Claim C3: with every other validation stage passing, an audio buffer of
exactly `maxAudioBytes` is accepted and stored whole, a buffer one byte
over the cap is rejected (`audio file too large`), an empty buffer is
rejected (`audio file is empty`), and a rejected upload is never also a
created row (the insert runs only in the created branch). -/
theorem claim_C3 (f : VoiceUpload) (d : ℚ) (b : List Nat)
    (hd : f.durationField = some (some d)) (h1 : 1 ≤ goRound d)
    (h2 : goRound d ≤ maxAudioDurationSeconds) (hb : f.audioFile = some b)
    (hm : mimeAccepted (resolveMime f.declaredMime f.sniffedMime) = true)
    (hn : goTrimSpace f.name ≠ "") (hn2 : runeLen (goTrimSpace f.name) ≤ maxNameLength) :
    (b.length = maxAudioBytes →
      handleVoiceMessageUpload f =
        .created (goTrimSpace f.name) (goTrimSpace f.note) b
          (resolveMime f.declaredMime f.sniffedMime) (goRound d)) ∧
    (b.length = maxAudioBytes + 1 →
      handleVoiceMessageUpload f = .clientError "audio file too large") ∧
    (b = [] → handleVoiceMessageUpload f = .clientError "audio file is empty") ∧
    (∀ r gn nt au mi du, handleVoiceMessageUpload f = .clientError r →
      handleVoiceMessageUpload f ≠ .created gn nt au mi du) := by
  refine ⟨?_, ?_, ?_, ?_⟩
  · intro hlen
    have hbne : b ≠ [] := by
      intro hcon
      rw [hcon] at hlen
      revert hlen
      decide
    exact handleVoice_created f d b hd h1 h2 hb hbne (by omega) hm hn hn2
  · intro hlen
    have htake : b.take (maxAudioBytes + 1) = b := List.take_of_length_le (by omega)
    simp only [handleVoiceMessageUpload, hd, hb, htake]
    rw [if_neg (by omega), if_neg (by omega), if_pos (by omega)]
  · intro hbe
    subst hbe
    simp only [handleVoiceMessageUpload, hd, hb, List.take_nil]
    rw [if_neg (by omega)]
    simp
  · intro r gn nt au mi du h
    rw [h]
    simp

/-- Witness for C3: an upload whose audio is exactly the 2 MB cap is
accepted and stored whole. -/
theorem claim_C3_witness :
    handleVoiceMessageUpload uploadAtCap =
      VoiceResult.created "Ana" "" (List.replicate maxAudioBytes 0) "audio/webm" 10 := by
  have h := (claim_C3 uploadAtCap 10 (List.replicate maxAudioBytes 0) rfl
      (by rw [goRound_ten]; decide) (by rw [goRound_ten]; decide) rfl
      (by decide) (by decide) (by decide)).1 (by simp)
  rw [goRound_ten] at h
  refine h.trans ?_
  have e1 : goTrimSpace uploadAtCap.name = "Ana" := by decide
  have e2 : goTrimSpace uploadAtCap.note = "" := by decide
  have e3 : resolveMime uploadAtCap.declaredMime uploadAtCap.sniffedMime = "audio/webm" := by
    decide
  rw [e1, e2, e3]

/-! ### Claim C7 (MIME resolution) -/

/-- Claim C7: with the earlier validation stages passing, the upload is
rejected with `unsupported audio type` exactly when the resolved MIME type
neither starts with `audio/` nor contains `webm`; when it is accepted the
stored type is the resolved one.  The resolution order is: the declared
part content type when non-empty, else the sniffed type, with `audio/webm`
substituted when that result is empty or `application/octet-stream`. -/
theorem claim_C7 (f : VoiceUpload) (d : ℚ) (b : List Nat)
    (hd : f.durationField = some (some d)) (h1 : 1 ≤ goRound d)
    (h2 : goRound d ≤ maxAudioDurationSeconds) (hb : f.audioFile = some b)
    (hbne : b ≠ []) (hble : b.length ≤ maxAudioBytes)
    (hn : goTrimSpace f.name ≠ "") (hn2 : runeLen (goTrimSpace f.name) ≤ maxNameLength) :
    (handleVoiceMessageUpload f = .clientError "unsupported audio type" ↔
      mimeAccepted (resolveMime f.declaredMime f.sniffedMime) = false) ∧
    (mimeAccepted (resolveMime f.declaredMime f.sniffedMime) = true →
      handleVoiceMessageUpload f =
        .created (goTrimSpace f.name) (goTrimSpace f.note) b
          (resolveMime f.declaredMime f.sniffedMime) (goRound d)) ∧
    (∀ dec sn : String, dec ≠ "" → dec ≠ "application/octet-stream" →
      resolveMime dec sn = dec) ∧
    (∀ sn : String, sn ≠ "" → sn ≠ "application/octet-stream" →
      resolveMime "" sn = sn) ∧
    (∀ dec sn : String, (if dec = "" then sn else dec) = "" ∨
      (if dec = "" then sn else dec) = "application/octet-stream" →
      resolveMime dec sn = "audio/webm") := by
  refine ⟨?_, ?_, ?_, ?_, ?_⟩
  · cases hm : mimeAccepted (resolveMime f.declaredMime f.sniffedMime) with
    | true =>
      rw [handleVoice_created f d b hd h1 h2 hb hbne hble hm hn hn2]
      simp
    | false =>
      rw [handleVoice_badMime f d b hd h1 h2 hb hbne hble hm]
      simp
  · intro hm
    exact handleVoice_created f d b hd h1 h2 hb hbne hble hm hn hn2
  · intro dec sn hdec hoct
    simp [resolveMime, hdec, hoct]
  · intro sn hsn hoct
    simp [resolveMime, hsn, hoct]
  · intro dec sn h
    simp only [resolveMime]
    rw [if_pos h]

/-- Witness for C7: no declared type and a generic sniffed type resolve to
the default `audio/webm` and the upload is accepted with that type. -/
theorem claim_C7_witness :
    handleVoiceMessageUpload uploadOctet =
      VoiceResult.created "Bo" "" [0] "audio/webm" 10 := by
  have h := (claim_C7 uploadOctet 10 [0] rfl
      (by rw [goRound_ten]; decide) (by rw [goRound_ten]; decide) rfl
      (by decide) (by decide) (by decide) (by decide)).2.1 (by decide)
  rw [goRound_ten] at h
  exact h.trans (by decide)

end GuestBook
